import Mathlib

/-!
# Verification of the ensmallen Padam facade and its SGD driver contract

Shallow embedding of `include/ensmallen_bits/padam/padam.hpp` and of the
generic SGD-style iterative optimizer driver it delegates to.  Numeric
matrices/vectors are modelled as `List ℚ` (the "iterate"); the element type
is exact rationals so every definition is executable and decidable.

The Padam facade (`padam.hpp`) is embedded from the source.  The SGD driver,
the `PadamUpdate` policy body and the `NoDecay` policy are declared and used
by `padam.hpp` but their implementation files are not part of this excerpt,
so they are modelled from the spec (each such definition's doc comment says
so explicitly).  In-place mutation of the iterate becomes explicit state
passing: an `Optimize` call returns the final objective together with the
finishing iterate and the updated optimizer instance.
-/

namespace Ens

/-- A parameter vector (the "iterate"): a flat numeric array over exact
rationals, standing in for the armadillo matrix type. -/
abbrev Vec := List ℚ

/-- The `PadamUpdate` policy object as constructed by the Padam facade:
it stores the four scalar parameters `epsilon`, `beta1`, `beta2`, `partial`
(the last named `partialParam` here).  Construction order follows
`PadamUpdate(epsilon, beta1, beta2, partial)` in `padam.hpp` line 86. -/
structure PadamUpdate where
  epsilon : ℚ
  beta1 : ℚ
  beta2 : ℚ
  partialParam : ℚ
  deriving DecidableEq, Repr

/-- The `NoDecay` decay policy: a stateless, parameterless policy object. -/
structure NoDecay where
  deriving DecidableEq, Repr

/-- Modelled from the spec (4.2, missing file `padam_update.hpp`): the
per-coordinate moment accumulators of the Padam update policy ("first and
second moment estimates") plus the step counter used for bias correction. -/
structure PadamState where
  m : Vec
  v : Vec
  t : ℕ
  deriving DecidableEq, Repr

/-- The generic SGD driver object, `SGD<UpdatePolicyType, DecayPolicyType>`:
driver configuration plus the two policy objects and the (lazily created,
persistable) instantiated policy state of type `ST`.  The driver
implementation file is not part of the excerpt; the field list follows the
constructor call in `padam.hpp` lines 81-89 and the accessors the facade
forwards to it. -/
structure SGD (U D ST : Type) where
  stepSize : ℚ
  batchSize : ℕ
  maxIterations : ℕ
  tolerance : ℚ
  shuffle : Bool
  updatePolicy : U
  decayPolicy : D
  resetPolicy : Bool
  exactObjective : Bool
  instState : Option ST

/-- The Padam facade: per `padam.hpp` line 191 it is exactly a wrapper
around one `SGD<PadamUpdate>` object (decay policy `NoDecay`). -/
structure Padam where
  optimizer : SGD PadamUpdate NoDecay (PadamState × Unit)

/-- Split a list of per-sample indices into consecutive batches of size `b`
(the last batch may be smaller).  This is the epoch batch partitioning the
driver uses (spec 4.1 step 2). -/
def chunksOf {α : Type} : ℕ → List α → List (List α)
  | _, [] => []
  | 0, l => [l]
  | b + 1, x :: xs => ((x :: xs).take (b + 1)) :: chunksOf (b + 1) ((x :: xs).drop (b + 1))
termination_by _ l => l.length
decreasing_by
  simp only [List.length_drop, List.length_cons]
  omega

/-- Modelled from the spec (6, objective function contract; the benchmark
functions are external collaborators): a separable objective with
`numFunctions` samples, batch evaluation and batch gradient over an explicit
list of sample indices; the gradient is represented in the type `G`
(the driver's `GradType`). -/
structure SeparableFunction (G : Type) where
  numFunctions : ℕ
  evaluate : Vec → List ℕ → ℚ
  gradient : Vec → List ℕ → G

/-- Modelled from the spec (4.2 contract): the statically resolved interface
of an update policy `U` with instantiated state `S` and gradient type `G`:
`allocate` (`Initialize` in the source) allocates state to the parameter shape, `update` maps state,
iterate, step size and gradient to the new iterate and new state. -/
structure UpdatePolicyOps (U S G : Type) where
  allocate : U → ℕ → S
  update : U → S → Vec → ℚ → G → Vec × S

/-- Modelled from the spec (4.1 step 3): the interface of a decay policy `D`
with instantiated state `T`; `update` adjusts the effective step size for
the next batch. -/
structure DecayPolicyOps (D T : Type) where
  allocate : D → ℕ → T
  update : D → T → ℚ → ℚ × T

/-- Modelled from the spec: `NoDecay` keeps the step size unchanged and has
trivial state. -/
def noDecayOps : DecayPolicyOps NoDecay Unit where
  allocate := fun _ _ => ()
  update := fun _ t s => (s, t)

/-- Modelled from the spec (4.4): a callback observes every lifecycle point
named there — optimization start, epoch start and end, step start and end,
and after each gradient computation — and may signal a stop request at any
of them; dispatch points carry the global step index (step start,
after-gradient, step end) or the epoch index (epoch start, epoch end). -/
structure Callback where
  atStart : Bool
  atEpochStart : ℕ → Bool
  atStepStart : ℕ → Bool
  atGradient : ℕ → Bool
  atStepEnd : ℕ → Bool
  atEpochEnd : ℕ → Bool

/-- Whether any registered callback signals stop at the optimization-start
dispatch point. -/
def stopAtStart (cbs : List Callback) : Bool :=
  cbs.any fun cb => cb.atStart

/-- Whether any registered callback signals stop at the epoch-start dispatch
point of epoch `e`. -/
def stopAtEpochStart (cbs : List Callback) (e : ℕ) : Bool :=
  cbs.any fun cb => cb.atEpochStart e

/-- Whether any registered callback signals stop at the step-start dispatch
point of step `i`. -/
def stopAtStepStart (cbs : List Callback) (i : ℕ) : Bool :=
  cbs.any fun cb => cb.atStepStart i

/-- Whether any registered callback signals stop at the after-gradient
dispatch point of step `i`. -/
def stopAtGradient (cbs : List Callback) (i : ℕ) : Bool :=
  cbs.any fun cb => cb.atGradient i

/-- Whether any registered callback signals stop at the end-of-step dispatch
point of step `i`. -/
def stopAtStepEnd (cbs : List Callback) (i : ℕ) : Bool :=
  cbs.any fun cb => cb.atStepEnd i

/-- Whether any registered callback signals stop at the end-of-epoch
dispatch point of epoch `e`. -/
def stopAtEpochEnd (cbs : List Callback) (e : ℕ) : Bool :=
  cbs.any fun cb => cb.atEpochEnd e

/-- The configuration-error taxonomy of spec 7 for the gradient-based
driver. -/
inductive ConfigError where
  | emptyIterate
  | zeroBatchSize
  | zeroNumFunctions
  deriving DecidableEq, Repr

/-- Why a run reached a terminal state (spec 4.1 step 5). -/
inductive Cause where
  | maxIterationsReached
  | toleranceReached
  | callbackStop
  deriving DecidableEq, Repr

/-- Modelled from the spec (4.1): configuration checks performed at the
start of `Optimize`, before any mutation of the iterate. -/
def configCheck (batchSize numFunctions : ℕ) (x0 : Vec) : Option ConfigError :=
  if x0.length = 0 then some ConfigError.emptyIterate
  else if batchSize = 0 then some ConfigError.zeroBatchSize
  else if numFunctions = 0 then some ConfigError.zeroNumFunctions
  else none

/-- The driver configuration the iteration loop reads (the scalar parameters
of spec 3 "Configuration", without the policy objects or instance state). -/
structure DriverConfig where
  stepSize : ℚ
  batchSize : ℕ
  maxIterations : ℕ
  tolerance : ℚ
  shuffle : Bool
  exactObjective : Bool
  deriving DecidableEq, Repr

/-- Project the loop-relevant configuration out of an SGD driver object. -/
def SGD.toConfig {U D ST : Type} (sgd : SGD U D ST) : DriverConfig :=
  { stepSize := sgd.stepSize, batchSize := sgd.batchSize,
    maxIterations := sgd.maxIterations, tolerance := sgd.tolerance,
    shuffle := sgd.shuffle, exactObjective := sgd.exactObjective }

/-- The collaborators of one driver run: the resolved policy interfaces, the
objective function, the per-epoch index orderings used when shuffling, and
the registered callbacks. -/
structure DriverEnv (U D S T G : Type) where
  uops : UpdatePolicyOps U S G
  dops : DecayPolicyOps D T
  func : SeparableFunction G
  orderFun : ℕ → List ℕ
  cbs : List Callback

/-- Modelled from the spec (4.1): the mutable state of the iteration loop.
`remaining` is the iteration budget still available (`none` when
`maxIterations = 0`, i.e. unbounded); `epochSum`/`epochBatches` accumulate
the per-batch losses of the current epoch for the estimated objective;
`cause` is set exactly when a terminal condition has been observed. -/
structure LoopState (S T : Type) where
  iterate : Vec
  pstate : S
  dstate : T
  stepSize : ℚ
  steps : ℕ
  points : ℕ
  remaining : Option ℕ
  epochSum : ℚ
  epochBatches : ℕ
  lastObjective : Option ℚ
  cause : Option Cause

/-- Modelled from the spec (4.1 step 3 and 4.4): process one batch.  In
order: check the iteration budget; fire the step-start dispatch point;
evaluate the batch loss and batch gradient; fire the after-gradient
dispatch point; delegate the parameter mutation to the update policy; apply
the decay policy; fire the end-of-step dispatch point.  The stop flag is
checked after each dispatch point and a stop makes the state terminal; a
batch is clamped so the iteration budget is never exceeded. -/
def processBatch {U D S T G : Type} (env : DriverEnv U D S T G) (u : U) (d : D)
    (batch : List ℕ) (st : LoopState S T) : LoopState S T :=
  if st.cause.isSome then st
  else if st.remaining = some 0 then
    { st with cause := some Cause.maxIterationsReached }
  else if stopAtStepStart env.cbs st.steps then
    { st with cause := some Cause.callbackStop }
  else
    let eff := match st.remaining with
      | none => batch.length
      | some rr => min batch.length rr
    let idxs := batch.take eff
    let loss := env.func.evaluate st.iterate idxs
    let g := env.func.gradient st.iterate idxs
    if stopAtGradient env.cbs st.steps then
      { st with cause := some Cause.callbackStop }
    else
      let xs := env.uops.update u st.pstate st.iterate st.stepSize g
      let ss := env.dops.update d st.dstate st.stepSize
      let st1 : LoopState S T :=
        { st with
          iterate := xs.1, pstate := xs.2, dstate := ss.2, stepSize := ss.1,
          steps := st.steps + 1, points := st.points + eff,
          remaining := st.remaining.map (fun rr => rr - eff),
          epochSum := st.epochSum + loss, epochBatches := st.epochBatches + 1 }
      if stopAtStepEnd env.cbs st.steps then
        { st1 with cause := some Cause.callbackStop }
      else st1

/-- Process the batches of one epoch in order; once a terminal cause is
observed, later batches leave the state unchanged. -/
def processBatches {U D S T G : Type} (env : DriverEnv U D S T G) (u : U) (d : D) :
    List (List ℕ) → LoopState S T → LoopState S T
  | [], st => st
  | b :: bs, st => processBatches env u d bs (processBatch env u d b st)

/-- Modelled from the spec (4.1 step 1): the per-sample index ordering of
epoch `e`: identity order, or the regenerated permutation when shuffling is
enabled. -/
def epochOrder {U D S T G : Type} (env : DriverEnv U D S T G)
    (cfg : DriverConfig) (e : ℕ) : List ℕ :=
  if cfg.shuffle then env.orderFun e else List.range env.func.numFunctions

/-- Modelled from the spec (4.1 steps 1-5 and 4.4): one epoch.  Fire the
epoch-start dispatch point (a stop observed there ends the run), choose the
index ordering (identity order, or the regenerated permutation when
shuffling), process the consecutive batches, then at the epoch boundary
compute the exact objective or the running average of the per-batch losses,
check the tolerance termination criterion against the previous epoch
objective, and fire the end-of-epoch dispatch point. -/
def runEpoch {U D S T G : Type} (env : DriverEnv U D S T G) (cfg : DriverConfig)
    (u : U) (d : D) (e : ℕ) (st : LoopState S T) : LoopState S T :=
  let N := env.func.numFunctions
  let st0 := { st with epochSum := 0, epochBatches := 0 }
  if stopAtEpochStart env.cbs e then { st0 with cause := some Cause.callbackStop } else
  let st1 := processBatches env u d (chunksOf cfg.batchSize (epochOrder env cfg e)) st0
  if st1.cause.isSome then st1 else
  let obj := if cfg.exactObjective then env.func.evaluate st1.iterate (List.range N)
             else st1.epochSum / (st1.epochBatches : ℚ)
  let stopTol := match st1.lastObjective with
    | none => false
    | some prev => decide (|obj - prev| < cfg.tolerance)
  let st2 := { st1 with lastObjective := some obj }
  if stopTol then { st2 with cause := some Cause.toleranceReached }
  else if stopAtEpochEnd env.cbs e then { st2 with cause := some Cause.callbackStop }
  else st2

/-- Modelled from the spec (4.1): the epoch loop, driven by an explicit
epoch budget `fuel` (a device of the total model; every theorem about the
bounded regime holds for every `fuel`).  The loop exits as soon as a
terminal cause has been observed. -/
def runEpochs {U D S T G : Type} (env : DriverEnv U D S T G) (cfg : DriverConfig)
    (u : U) (d : D) : ℕ → ℕ → LoopState S T → LoopState S T
  | 0, _, st => st
  | fuel + 1, e, st =>
    if st.cause.isSome then st
    else runEpochs env cfg u d fuel (e + 1) (runEpoch env cfg u d e st)

/-- The loop state at the start of a run: the caller's iterate, the starting
policy states, the configured step size, and a full iteration budget
(`none` when `maxIterations = 0`). -/
def initLoopState {S T : Type} (cfg : DriverConfig) (x0 : Vec) (s0 : S × T) :
    LoopState S T :=
  { iterate := x0, pstate := s0.1, dstate := s0.2, stepSize := cfg.stepSize,
    steps := 0, points := 0,
    remaining := if cfg.maxIterations = 0 then none else some cfg.maxIterations,
    epochSum := 0, epochBatches := 0, lastObjective := none, cause := none }

/-- Modelled from the spec (4.1 "Returns" and step 4): the objective value
returned to the caller: the exact objective at the finishing iterate when
`exactObjective` is set, otherwise the running average of the per-batch
losses of the last (possibly partial) epoch. -/
def finalObjective {G : Type} (cfg : DriverConfig) (func : SeparableFunction G)
    {S T : Type} (st : LoopState S T) : ℚ :=
  if cfg.exactObjective then func.evaluate st.iterate (List.range func.numFunctions)
  else if st.epochBatches = 0 then (st.lastObjective.getD 0)
  else st.epochSum / (st.epochBatches : ℚ)

/-- What one `Optimize` call hands back: the final objective (or the
configuration error), the finishing iterate (the in-place mutation of the
caller's matrix), and run statistics. -/
structure SGDResult where
  objective : Except ConfigError ℚ
  iterate : Vec
  steps : ℕ
  points : ℕ
  cause : Option Cause

/-- Modelled from the spec (4.1 "Reset policy" and 3 "Update Policy
State"): the policy state a run starts from: freshly initialized when
`resetPolicy` is set or no prior state exists, otherwise the state
persisted from the previous call. -/
def SGD.startState {U D ST : Type} (sgd : SGD U D ST) (fresh : ℕ → ST) (n : ℕ) : ST :=
  match sgd.instState with
  | none => fresh n
  | some s => if sgd.resetPolicy then fresh n else s

/-- Modelled from the spec (4.1 and 4.4): the final loop state of a
(configuration-valid) driver run: fire the optimization-start dispatch
point — a stop observed there ends the run before any step, the iterate
still at the caller's starting point — otherwise run the epoch loop from
the starting policy state. -/
def SGD.runState {U D S T G : Type} (sgd : SGD U D (S × T))
    (env : DriverEnv U D S T G) (fuel : ℕ) (x0 : Vec) : LoopState S T :=
  let st0 := initLoopState sgd.toConfig x0
    (sgd.startState (fun n =>
      (env.uops.allocate sgd.updatePolicy n, env.dops.allocate sgd.decayPolicy n))
      x0.length)
  if stopAtStart env.cbs then { st0 with cause := some Cause.callbackStop }
  else runEpochs env sgd.toConfig sgd.updatePolicy sgd.decayPolicy fuel 0 st0

/-- Modelled from the spec (4.1): the body of `SGD::Optimize`: run the
configuration checks; on failure surface the error with the iterate
untouched and the instance state unchanged, otherwise run the loop and
report the finishing iterate, objective and the state to persist on the
instance. -/
def SGD.optimizeCore {U D S T G : Type} (sgd : SGD U D (S × T))
    (env : DriverEnv U D S T G) (fuel : ℕ) (x0 : Vec) :
    SGDResult × Option (S × T) :=
  match configCheck sgd.batchSize env.func.numFunctions x0 with
  | some e =>
    ({ objective := Except.error e, iterate := x0, steps := 0, points := 0,
       cause := none }, sgd.instState)
  | none =>
    let stF := sgd.runState env fuel x0
    ({ objective := Except.ok (finalObjective sgd.toConfig env.func stF),
       iterate := stF.iterate, steps := stF.steps, points := stF.points,
       cause := stF.cause }, some (stF.pstate, stF.dstate))

/-- `SGD::Optimize`: the call mutates only the instance's persisted policy
state; every configuration field survives the call unchanged. -/
def SGD.Optimize {U D S T G : Type} (sgd : SGD U D (S × T))
    (env : DriverEnv U D S T G) (fuel : ℕ) (x0 : Vec) :
    SGDResult × SGD U D (S × T) :=
  let pr := sgd.optimizeCore env fuel x0
  (pr.1, { sgd with instState := pr.2 })

/-- Modelled from the spec: the gradient-representation interface a
`GradType` `G` must offer to the Padam update rule (the rule reads the
gradient coordinates). -/
structure GradOps (G : Type) where
  toVec : G → Vec

/-- The identity gradient representation: gradients stored in the same type
as the iterate (`GradType = MatType`). -/
def vecGradOps : GradOps Vec := { toVec := id }

/-- Modelled from the spec (4.2, missing file `padam_update.hpp`): the Padam
update rule.  First and second moment estimates are updated by exponential
moving averages with rates `beta1`, `beta2`; the step is bias-corrected; the
denominator raises the bias-corrected second moment to the policy's stored
partial power — `rpow b e` stands for `b ^ e`, a parameter of the model
since exact fractional powers do not exist in ℚ, and is always applied to
the policy's `partialParam` as the exponent — guarded by `epsilon` against
division by zero. -/
def padamUpdateOps {G : Type} (gops : GradOps G) (rpow : ℚ → ℚ → ℚ) :
    UpdatePolicyOps PadamUpdate PadamState G where
  allocate := fun _ n =>
    { m := List.replicate n 0, v := List.replicate n 0, t := 0 }
  update := fun u s x step grad =>
    let g := gops.toVec grad
    let m := List.zipWith (fun mi gi => u.beta1 * mi + (1 - u.beta1) * gi) s.m g
    let v := List.zipWith (fun vi gi => u.beta2 * vi + (1 - u.beta2) * gi * gi) s.v g
    let t := s.t + 1
    let mhat := m.map (fun mi => mi / (1 - u.beta1 ^ t))
    let vhat := v.map (fun vi => vi / (1 - u.beta2 ^ t))
    let x2 := List.zipWith
      (fun xi p => xi - step * p.1 / (rpow p.2 u.partialParam + u.epsilon))
      x (mhat.zip vhat)
    (x2, { m := m, v := v, t := t })

/-- The `DriverEnv` a Padam facade run passes to its SGD driver. -/
def padamEnv {G : Type} (gops : GradOps G) (rpow : ℚ → ℚ → ℚ)
    (func : SeparableFunction G) (orderFun : ℕ → List ℕ) (cbs : List Callback) :
    DriverEnv PadamUpdate NoDecay PadamState Unit G :=
  { uops := padamUpdateOps gops rpow, dops := noDecayOps, func := func,
    orderFun := orderFun, cbs := cbs }

/-- The Padam constructor (`padam.hpp` lines 70-90): member-initializes the
SGD driver with the given driver parameters, a
`PadamUpdate(epsilon, beta1, beta2, partial)` update policy and a
`NoDecay()` decay policy; no policy state is instantiated yet. -/
def Padam.build (stepSize : ℚ) (batchSize : ℕ)
    (beta1 beta2 partialParam epsilon : ℚ) (maxIterations : ℕ) (tolerance : ℚ)
    (shuffle resetPolicy exactObjective : Bool) : Padam :=
  { optimizer :=
    { stepSize := stepSize, batchSize := batchSize, maxIterations := maxIterations,
      tolerance := tolerance, shuffle := shuffle,
      updatePolicy :=
        { epsilon := epsilon, beta1 := beta1, beta2 := beta2,
          partialParam := partialParam },
      decayPolicy := {}, resetPolicy := resetPolicy,
      exactObjective := exactObjective, instState := none } }

/-- The explicit-GradType `Padam::Optimize` overload (`padam.hpp` lines
106-117): delegate to the wrapped SGD driver's `Optimize` on the same
arguments; the driver's updated state is stored back into the facade. -/
def Padam.OptimizeG (G : Type) (gops : GradOps G) (rpow : ℚ → ℚ → ℚ) (p : Padam)
    (func : SeparableFunction G) (orderFun : ℕ → List ℕ) (cbs : List Callback)
    (fuel : ℕ) (x : Vec) : SGDResult × Padam :=
  let pr := p.optimizer.Optimize (padamEnv gops rpow func orderFun cbs) fuel x
  (pr.1, { optimizer := pr.2 })

/-- The `Padam::Optimize` overload without an explicit gradient type
(`padam.hpp` lines 119-130): forward the MatType as GradType. -/
def Padam.Optimize (rpow : ℚ → ℚ → ℚ) (p : Padam) (func : SeparableFunction Vec)
    (orderFun : ℕ → List ℕ) (cbs : List Callback) (fuel : ℕ) (x : Vec) :
    SGDResult × Padam :=
  Padam.OptimizeG Vec vecGradOps rpow p func orderFun cbs fuel x

/-- `Padam::StepSize` getter (`padam.hpp` line 133). -/
def Padam.StepSize (p : Padam) : ℚ := p.optimizer.stepSize

/-- `Padam::StepSize` setter (`padam.hpp` line 135, reference accessor). -/
def Padam.setStepSize (p : Padam) (v : ℚ) : Padam :=
  { optimizer := { p.optimizer with stepSize := v } }

/-- `Padam::BatchSize` getter (`padam.hpp` line 138). -/
def Padam.BatchSize (p : Padam) : ℕ := p.optimizer.batchSize

/-- `Padam::BatchSize` setter (`padam.hpp` line 140). -/
def Padam.setBatchSize (p : Padam) (v : ℕ) : Padam :=
  { optimizer := { p.optimizer with batchSize := v } }

/-- `Padam::Beta1` getter (`padam.hpp` line 143). -/
def Padam.Beta1 (p : Padam) : ℚ := p.optimizer.updatePolicy.beta1

/-- `Padam::Beta1` setter (`padam.hpp` line 145). -/
def Padam.setBeta1 (p : Padam) (v : ℚ) : Padam :=
  { optimizer := { p.optimizer with
      updatePolicy := { p.optimizer.updatePolicy with beta1 := v } } }

/-- `Padam::Beta2` getter (`padam.hpp` line 148). -/
def Padam.Beta2 (p : Padam) : ℚ := p.optimizer.updatePolicy.beta2

/-- `Padam::Beta2` setter (`padam.hpp` line 150). -/
def Padam.setBeta2 (p : Padam) (v : ℚ) : Padam :=
  { optimizer := { p.optimizer with
      updatePolicy := { p.optimizer.updatePolicy with beta2 := v } } }

/-- `Padam::Partial` getter (`padam.hpp` line 153; named
`PartialParameter` here). -/
def Padam.PartialParameter (p : Padam) : ℚ := p.optimizer.updatePolicy.partialParam

/-- `Padam::Partial` setter (`padam.hpp` line 155). -/
def Padam.setPartialParameter (p : Padam) (v : ℚ) : Padam :=
  { optimizer := { p.optimizer with
      updatePolicy := { p.optimizer.updatePolicy with partialParam := v } } }

/-- `Padam::Epsilon` getter (`padam.hpp` line 158). -/
def Padam.Epsilon (p : Padam) : ℚ := p.optimizer.updatePolicy.epsilon

/-- `Padam::Epsilon` setter (`padam.hpp` line 160). -/
def Padam.setEpsilon (p : Padam) (v : ℚ) : Padam :=
  { optimizer := { p.optimizer with
      updatePolicy := { p.optimizer.updatePolicy with epsilon := v } } }

/-- `Padam::MaxIterations` getter (`padam.hpp` line 163). -/
def Padam.MaxIterations (p : Padam) : ℕ := p.optimizer.maxIterations

/-- `Padam::MaxIterations` setter (`padam.hpp` line 165). -/
def Padam.setMaxIterations (p : Padam) (v : ℕ) : Padam :=
  { optimizer := { p.optimizer with maxIterations := v } }

/-- `Padam::Tolerance` getter (`padam.hpp` line 168). -/
def Padam.Tolerance (p : Padam) : ℚ := p.optimizer.tolerance

/-- `Padam::Tolerance` setter (`padam.hpp` line 170). -/
def Padam.setTolerance (p : Padam) (v : ℚ) : Padam :=
  { optimizer := { p.optimizer with tolerance := v } }

/-- `Padam::Shuffle` getter (`padam.hpp` line 173). -/
def Padam.Shuffle (p : Padam) : Bool := p.optimizer.shuffle

/-- `Padam::Shuffle` setter (`padam.hpp` line 175). -/
def Padam.setShuffle (p : Padam) (v : Bool) : Padam :=
  { optimizer := { p.optimizer with shuffle := v } }

/-- `Padam::ExactObjective` getter (`padam.hpp` line 178). -/
def Padam.ExactObjective (p : Padam) : Bool := p.optimizer.exactObjective

/-- `Padam::ExactObjective` setter (`padam.hpp` line 180). -/
def Padam.setExactObjective (p : Padam) (v : Bool) : Padam :=
  { optimizer := { p.optimizer with exactObjective := v } }

/-- `Padam::ResetPolicy` getter (`padam.hpp` line 184). -/
def Padam.ResetPolicy (p : Padam) : Bool := p.optimizer.resetPolicy

/-- `Padam::ResetPolicy` setter (`padam.hpp` line 187). -/
def Padam.setResetPolicy (p : Padam) (v : Bool) : Padam :=
  { optimizer := { p.optimizer with resetPolicy := v } }

/-- The full tunable surface of the Padam facade read through its getters,
as one tuple: step size, batch size, beta1, beta2, partial, epsilon, max
iterations, tolerance, shuffle, exact-objective flag, reset policy. -/
def Padam.view (p : Padam) :
    ℚ × ℕ × ℚ × ℚ × ℚ × ℚ × ℕ × ℚ × Bool × Bool × Bool :=
  (p.StepSize, p.BatchSize, p.Beta1, p.Beta2, p.PartialParameter, p.Epsilon,
   p.MaxIterations, p.Tolerance, p.Shuffle, p.ExactObjective, p.ResetPolicy)

/-- Stated from the spec's words for the refinement claim about the Padam
facade: "constructing a Padam optimizer builds exactly an SGD driver
configured with the PadamUpdate update policy (constructed from epsilon,
beta1, beta2, partial), the NoDecay decay policy, and the given stepSize,
batchSize, maxIterations, tolerance, shuffle, resetPolicy, and
exactObjective" — with no instantiated policy state before the first run. -/
def padamFacadeSpec (stepSize : ℚ) (batchSize : ℕ)
    (beta1 beta2 partialParam epsilon : ℚ) (maxIterations : ℕ) (tolerance : ℚ)
    (shuffle resetPolicy exactObjective : Bool) :
    SGD PadamUpdate NoDecay (PadamState × Unit) :=
  { stepSize := stepSize, batchSize := batchSize, maxIterations := maxIterations,
    tolerance := tolerance, shuffle := shuffle,
    updatePolicy := PadamUpdate.mk epsilon beta1 beta2 partialParam,
    decayPolicy := NoDecay.mk, resetPolicy := resetPolicy,
    exactObjective := exactObjective, instState := none }

/-- The loop invariant tying the iteration budget to the points processed:
with a positive iteration limit the budget `remaining` always carries the
limit minus the points already processed; with limit `0` the budget is
absent, and the `maxIterationsReached` cause can then never be recorded. -/
def DriverInv (maxIter : ℕ) {S T : Type} (st : LoopState S T) : Prop :=
  (st.remaining = none → maxIter = 0) ∧
  (∀ r, st.remaining = some r → st.points + r = maxIter ∧ 0 < maxIter) ∧
  (maxIter = 0 → st.cause ≠ some Cause.maxIterationsReached)

/-- A one-sample linear objective over one parameter, used to exercise the
driver on concrete runs. -/
def demoFunction : SeparableFunction Vec :=
  { numFunctions := 1, evaluate := fun xs _ => xs.headD 0,
    gradient := fun _ _ => [1] }

/-- A small concrete Padam instance: step size 1, batch size 1, five
iterations, zero tolerance, linear order, reset on, exact objective. -/
def demoPadam : Padam := Padam.build 1 1 0 0 1 1 5 0 false true true

/-- A callback set whose only member requests a stop at the end of every
step and at no other dispatch point. -/
def demoStopCallbacks : List Callback :=
  [{ atStart := false, atEpochStart := fun _ => false,
     atStepStart := fun _ => false, atGradient := fun _ => false,
     atStepEnd := fun _ => true, atEpochEnd := fun _ => false }]

/-- Like `demoPadam` but with `exactObjective = false`: the run returns the
estimated (last-epoch running-average) objective. -/
def demoPadamEst : Padam := Padam.build 1 1 0 0 1 1 5 0 false true false

/-- A separable objective with no samples: `NumFunctions() = 0` is a
configuration error for the gradient-based driver. -/
def demoEmptyFunction : SeparableFunction Vec :=
  { numFunctions := 0, evaluate := fun _ _ => 0, gradient := fun _ _ => [] }

/-- Modelled from the spec (2, 4.3): an objective for the population-based
driver: evaluation only, no gradient required. -/
structure ObjectiveFunction where
  evaluate : Vec → ℚ

/-- The configuration-error taxonomy of spec 7 and spec 4.3 for the
population-based driver. -/
inductive PSOConfigError where
  | emptyIterate
  | zeroSwarmSize
  | boundsShapeMismatch
  | malformedBounds
  deriving DecidableEq, Repr

/-- Modelled from the spec (4.3, 6; the PSO implementation is not under
src/, only its tests): the `LBestPSO` facade configuration: swarm size,
per-dimension (or scalar-broadcastable) bounds, the inertia, cognitive and
social weights of the velocity update, the local-best ring topology size,
and the termination parameters (iteration limit, improvement tolerance and
the number of consecutive low-improvement iterations that ends the run). -/
structure LBestPSO where
  swarmSize : ℕ
  lowerBound : Vec
  upperBound : Vec
  inertiaWeight : ℚ
  cognitiveWeight : ℚ
  socialWeight : ℚ
  topologySize : ℕ
  maxIterations : ℕ
  tolerance : ℚ
  horizonSize : ℕ

/-- Modelled from the spec (3 "Swarm"): a particle owns a position, a
velocity, a personal-best position and the personal-best objective value. -/
structure Particle where
  position : Vec
  velocity : Vec
  bestPosition : Vec
  bestObjective : ℚ

/-- The placeholder a fold over a (nonempty, by the configuration check)
swarm starts from. -/
def dummyParticle : Particle :=
  { position := [], velocity := [], bestPosition := [], bestObjective := 0 }

/-- Modelled from the spec (4.3, 9): the random draws of the population
driver, supplied as explicit streams since the spec leaves the distribution
and seeding open: position-sampling fractions per particle and dimension,
and the per-iteration, per-particle, per-dimension cognitive and social
coefficients. -/
structure PSORandom where
  initCoeff : ℕ → ℕ → ℚ
  cognitiveCoeff : ℕ → ℕ → ℕ → ℚ
  socialCoeff : ℕ → ℕ → ℕ → ℚ

/-- Modelled from the spec (4.3): a bound vector is per-dimension or a
scalar broadcastable to the parameter dimensionality. -/
def broadcastBound (b : Vec) (n : ℕ) : Vec :=
  if b.length = 1 then List.replicate n (b.headD 0) else b

/-- Modelled from the spec (4.3 failure conditions, 7): the configuration
checks at the start of the population-based driver's `Optimize`: the
iterate supplies the dimensionality and must be nonempty, the swarm must be
nonempty, each bound must be per-dimension or a broadcastable scalar, and
no lower bound may exceed its upper bound (a malformed bound makes uniform
sampling within `[lower, upper]` meaningless). -/
def psoConfigCheck (s : LBestPSO) (x0 : Vec) : Option PSOConfigError :=
  if x0.length = 0 then some PSOConfigError.emptyIterate
  else if s.swarmSize = 0 then some PSOConfigError.zeroSwarmSize
  else if ¬ (s.lowerBound.length = x0.length ∨ s.lowerBound.length = 1) ∨
          ¬ (s.upperBound.length = x0.length ∨ s.upperBound.length = 1) then
    some PSOConfigError.boundsShapeMismatch
  else if ((broadcastBound s.lowerBound x0.length).zip
      (broadcastBound s.upperBound x0.length)).any
      (fun pr => decide (pr.2 < pr.1)) then
    some PSOConfigError.malformedBounds
  else none

/-- Modelled from the spec (4.3 initialization): particle `i` starts at a
position sampled within the bounds (`lower + frac * (upper - lower)` per
dimension, the fraction drawn from the supplied stream), zero velocity, and
personal best equal to the initial position and its objective value. -/
def initParticle (f : ObjectiveFunction) (lb ub : Vec) (rnd : PSORandom)
    (i : ℕ) : Particle :=
  let pos := (List.range lb.length).map (fun d =>
    lb.getD d 0 + rnd.initCoeff i d * (ub.getD d 0 - lb.getD d 0))
  { position := pos, velocity := List.replicate lb.length 0,
    bestPosition := pos, bestObjective := f.evaluate pos }

/-- The particle with the smaller personal-best objective. -/
def betterParticle (a b : Particle) : Particle :=
  if b.bestObjective < a.bestObjective then b else a

/-- Modelled from the spec (4.3, local-best topology): the best particle in
the wrap-around ring of `k` neighbors starting at index `i`. -/
def neighborhoodBest (swarm : List Particle) (i k : ℕ) (p : Particle) :
    Particle :=
  ((List.range (max k 1)).map
    (fun j => swarm.getD ((i + j) % swarm.length) p)).foldl betterParticle p

/-- Modelled from the spec (4.3 per-iteration update): velocity becomes
inertia times the old velocity plus the cognitive pull toward the personal
best and the social pull toward the neighborhood best, each weighted by the
supplied per-dimension random coefficients; the position moves by the
velocity; the objective is re-evaluated and the personal best updated on
improvement. -/
def updateParticle (s : LBestPSO) (f : ObjectiveFunction) (rnd : PSORandom)
    (t : ℕ) (swarm : List Particle) (i : ℕ) (p : Particle) : Particle :=
  let nb := (neighborhoodBest swarm i s.topologySize p).bestPosition
  let n := p.position.length
  let vel := (List.range n).map (fun d =>
    s.inertiaWeight * p.velocity.getD d 0 +
    s.cognitiveWeight * rnd.cognitiveCoeff t i d *
      (p.bestPosition.getD d 0 - p.position.getD d 0) +
    s.socialWeight * rnd.socialCoeff t i d *
      (nb.getD d 0 - p.position.getD d 0))
  let pos := List.zipWith (fun a b => a + b) p.position vel
  let obj := f.evaluate pos
  if obj < p.bestObjective then
    { position := pos, velocity := vel, bestPosition := pos,
      bestObjective := obj }
  else
    { position := pos, velocity := vel, bestPosition := p.bestPosition,
      bestObjective := p.bestObjective }

/-- One iteration of the swarm: every particle is updated against the
previous iteration's swarm (neighborhood bests are recomputed every
iteration, spec 3 "Global/Neighborhood Best"). -/
def psoIteration (s : LBestPSO) (f : ObjectiveFunction) (rnd : PSORandom)
    (t : ℕ) (swarm : List Particle) : List Particle :=
  (List.range swarm.length).map
    (fun i => updateParticle s f rnd t swarm i (swarm.getD i dummyParticle))

/-- The best particle of the swarm (seeded at the swarm's first member). -/
def swarmBest (swarm : List Particle) : Particle :=
  swarm.foldl betterParticle (swarm.headD dummyParticle)

/-- Modelled from the spec (4.3 termination): iterate the swarm until the
iteration limit is exhausted or the best-objective improvement stays below
the tolerance for `horizonSize` consecutive iterations. -/
def psoRun (s : LBestPSO) (f : ObjectiveFunction) (rnd : PSORandom) :
    ℕ → ℕ → ℕ → ℚ → List Particle → List Particle
  | 0, _, _, _, swarm => swarm
  | fuel + 1, t, streak, prevBest, swarm =>
    let swarm2 := psoIteration s f rnd t swarm
    let best := (swarmBest swarm2).bestObjective
    let streak2 := if prevBest - best < s.tolerance then streak + 1 else 0
    if s.horizonSize ≤ streak2 then swarm2
    else psoRun s f rnd fuel (t + 1) streak2 best swarm2

/-- Modelled from the spec (4.3, 7): `LBestPSO::Optimize`: run the
configuration checks — on failure surface the error with the iterate
exactly as passed in — otherwise initialize the swarm within the
(broadcast) bounds, iterate the velocity/position updates, and return the
best objective found with the iterate set to the best-found position. -/
def LBestPSO.Optimize (s : LBestPSO) (f : ObjectiveFunction)
    (rnd : PSORandom) (x0 : Vec) : Except PSOConfigError ℚ × Vec :=
  match psoConfigCheck s x0 with
  | some e => (Except.error e, x0)
  | none =>
    let n := x0.length
    let lb := broadcastBound s.lowerBound n
    let ub := broadcastBound s.upperBound n
    let swarm0 := (List.range s.swarmSize).map (initParticle f lb ub rnd)
    let swarmF := psoRun s f rnd s.maxIterations 0 0
      (swarmBest swarm0).bestObjective swarm0
    let final := swarmBest swarmF
    (Except.ok final.bestObjective, final.bestPosition)

/-- A concrete PSO facade whose swarm is empty: a configuration error. -/
def demoPSO : LBestPSO :=
  { swarmSize := 0, lowerBound := [0], upperBound := [1],
    inertiaWeight := 1, cognitiveWeight := 1, socialWeight := 1,
    topologySize := 2, maxIterations := 3, tolerance := 0, horizonSize := 2 }

/-- A one-dimensional sphere objective for the PSO demos. -/
def demoObjective : ObjectiveFunction :=
  { evaluate := fun xs => xs.foldl (fun a q => a + q * q) 0 }

/-- Constant random streams for the PSO demos. -/
def demoRandom : PSORandom :=
  { initCoeff := fun _ _ => 1 / 2, cognitiveCoeff := fun _ _ _ => 1 / 2,
    socialCoeff := fun _ _ _ => 1 / 2 }

/- ## Theorems -/

theorem chunksOf_nil {α : Type} (b : ℕ) : chunksOf (α := α) b [] = [] := by
  cases b <;> simp [chunksOf]

theorem chunksOf_cons {α : Type} (b : ℕ) (x : α) (xs : List α) :
    chunksOf (b + 1) (x :: xs) =
      ((x :: xs).take (b + 1)) :: chunksOf (b + 1) ((x :: xs).drop (b + 1)) := by
  rw [chunksOf]

/-- Concatenating the batches of an epoch recovers the epoch's index order. -/
theorem chunksOf_flatten {α : Type} (b : ℕ) (l : List α) :
    (chunksOf (b + 1) l).flatten = l := by
  have H : ∀ (n : ℕ) (l : List α), l.length ≤ n → (chunksOf (b + 1) l).flatten = l := by
    intro n
    induction n with
    | zero =>
      intro l h
      have hl : l = [] := List.length_eq_zero.mp (Nat.le_zero.mp h)
      subst hl
      simp [chunksOf_nil]
    | succ n ih =>
      intro l h
      cases l with
      | nil => simp [chunksOf_nil]
      | cons x xs =>
        rw [chunksOf_cons]
        simp only [List.flatten_cons]
        rw [ih _ (by simp only [List.length_drop, List.length_cons] at *; omega),
          List.take_append_drop]
  exact H l.length l le_rfl

/-- Every batch produced by the partitioning is nonempty and no larger than
the batch size. -/
theorem chunksOf_mem_length {α : Type} (b : ℕ) (l : List α) :
    ∀ c ∈ chunksOf (b + 1) l, c ≠ [] ∧ c.length ≤ b + 1 := by
  have H : ∀ (n : ℕ) (l : List α), l.length ≤ n →
      ∀ c ∈ chunksOf (b + 1) l, c ≠ [] ∧ c.length ≤ b + 1 := by
    intro n
    induction n with
    | zero =>
      intro l h
      have hl : l = [] := List.length_eq_zero.mp (Nat.le_zero.mp h)
      subst hl
      simp [chunksOf_nil]
    | succ n ih =>
      intro l h
      cases l with
      | nil => simp [chunksOf_nil]
      | cons x xs =>
        rw [chunksOf_cons]
        intro c hc
        rcases List.mem_cons.mp hc with h1 | h1
        · subst h1
          refine ⟨by simp, ?_⟩
          exact List.length_take_le (b + 1) (x :: xs)
        · exact ih _ (by simp only [List.length_drop, List.length_cons] at *; omega) c h1
  exact H l.length l le_rfl

/-- Every batch except possibly the last has length exactly the batch size. -/
theorem chunksOf_dropLast_length {α : Type} (b : ℕ) (l : List α) :
    ∀ c ∈ (chunksOf (b + 1) l).dropLast, c.length = b + 1 := by
  have H : ∀ (n : ℕ) (l : List α), l.length ≤ n →
      ∀ c ∈ (chunksOf (b + 1) l).dropLast, c.length = b + 1 := by
    intro n
    induction n with
    | zero =>
      intro l h
      have hl : l = [] := List.length_eq_zero.mp (Nat.le_zero.mp h)
      subst hl
      simp [chunksOf_nil]
    | succ n ih =>
      intro l h
      cases l with
      | nil => simp [chunksOf_nil]
      | cons x xs =>
        rw [chunksOf_cons]
        by_cases hd : (x :: xs).drop (b + 1) = []
        · intro c hc
          rw [hd, chunksOf_nil] at hc
          simp at hc
        · have hne : chunksOf (b + 1) ((x :: xs).drop (b + 1)) ≠ [] := by
            cases hdl : (x :: xs).drop (b + 1) with
            | nil => exact absurd hdl hd
            | cons y ys => rw [chunksOf_cons]; simp
          intro c hc
          rw [List.dropLast_cons_of_ne_nil hne] at hc
          rcases List.mem_cons.mp hc with h1 | h1
          · subst h1
            have hlen : b + 1 ≤ (x :: xs).length := by
              by_contra hcon
              push_neg at hcon
              exact hd (List.drop_eq_nil_of_le (by omega))
            simpa using List.length_take_of_le hlen
          · exact ih _ (by simp only [List.length_drop, List.length_cons] at *; omega) c h1
  exact H l.length l le_rfl

theorem processBatch_stopped {U D S T G : Type} (env : DriverEnv U D S T G)
    (u : U) (d : D) (batch : List ℕ) (st : LoopState S T)
    (h : st.cause.isSome) : processBatch env u d batch st = st := by
  unfold processBatch
  simp [h]

theorem processBatches_stopped {U D S T G : Type} (env : DriverEnv U D S T G)
    (u : U) (d : D) (bs : List (List ℕ)) (st : LoopState S T)
    (h : st.cause.isSome) : processBatches env u d bs st = st := by
  induction bs with
  | nil => rfl
  | cons b bs ih =>
    unfold processBatches
    rw [processBatch_stopped env u d b st h, ih]

theorem runEpochs_stopped {U D S T G : Type} (env : DriverEnv U D S T G)
    (cfg : DriverConfig) (u : U) (d : D) (fuel e : ℕ) (st : LoopState S T)
    (h : st.cause.isSome) : runEpochs env cfg u d fuel e st = st := by
  cases fuel with
  | zero => rfl
  | succ fuel =>
    unfold runEpochs
    simp [h]

theorem DriverInv_mod {S T : Type} (M : ℕ) (st : LoopState S T)
    (h : DriverInv M st) (o : Option ℚ) (c : Option Cause)
    (hc : M = 0 → c ≠ some Cause.maxIterationsReached) :
    DriverInv M { st with lastObjective := o, cause := c } :=
  ⟨h.1, h.2.1, hc⟩

theorem processBatch_inv {U D S T G : Type} (env : DriverEnv U D S T G)
    (u : U) (d : D) (batch : List ℕ) (M : ℕ) (st : LoopState S T)
    (h : DriverInv M st) : DriverInv M (processBatch env u d batch st) := by
  obtain ⟨i1, i2, i3⟩ := h
  unfold processBatch
  dsimp only
  split
  · exact ⟨i1, i2, i3⟩
  split
  next hrem0 =>
    exact ⟨i1, i2, fun hM0 => absurd (i2 0 hrem0).2 (by omega)⟩
  next hrem0 =>
    have hrempart : ∀ eff : ℕ,
        ((st.remaining.map (fun rr => rr - eff)) = none → M = 0) := by
      intro eff hrm
      rcases hrem : st.remaining with _ | rr
      · exact i1 hrem
      · rw [hrem] at hrm
        simp at hrm
    split
    next hss =>
      exact ⟨i1, i2, fun _ => by simp⟩
    next hss =>
      split
      next hg =>
        exact ⟨i1, i2, fun _ => by simp⟩
      next hg =>
        have hpoints : ∀ (eff r : ℕ), (∀ rr, st.remaining = some rr → eff ≤ rr) →
            (st.remaining.map (fun rr => rr - eff)) = some r →
            st.points + eff + r = M ∧ 0 < M := by
          intro eff r heff hr
          rcases hrem : st.remaining with _ | rr
          · rw [hrem] at hr
            simp at hr
          · rw [hrem] at hr
            simp only [Option.map_some', Option.some.injEq] at hr
            obtain ⟨j1, j2⟩ := i2 rr hrem
            have := heff rr hrem
            exact ⟨by omega, j2⟩
        have heffb : ∀ rr, st.remaining = some rr →
            (match st.remaining with
             | none => batch.length
             | some rr2 => min batch.length rr2) ≤ rr := by
          intro rr hrr
          rw [hrr]
          exact Nat.min_le_right _ _
        split
        next hs =>
          exact ⟨hrempart _, fun r hr => hpoints _ r heffb hr, fun _ => by simp⟩
        next hs =>
          exact ⟨hrempart _, fun r hr => hpoints _ r heffb hr, fun hM0 => i3 hM0⟩

theorem processBatches_inv {U D S T G : Type} (env : DriverEnv U D S T G)
    (u : U) (d : D) (bs : List (List ℕ)) (M : ℕ) (st : LoopState S T)
    (h : DriverInv M st) : DriverInv M (processBatches env u d bs st) := by
  induction bs generalizing st with
  | nil => exact h
  | cons b bs ih => exact ih _ (processBatch_inv env u d b M st h)

theorem runEpoch_inv {U D S T G : Type} (env : DriverEnv U D S T G)
    (cfg : DriverConfig) (u : U) (d : D) (e : ℕ) (M : ℕ) (st : LoopState S T)
    (h : DriverInv M st) : DriverInv M (runEpoch env cfg u d e st) := by
  have h0 : DriverInv M { st with epochSum := 0, epochBatches := 0 } := h
  have hPB := processBatches_inv env u d
    (chunksOf cfg.batchSize (epochOrder env cfg e))
    M { st with epochSum := 0, epochBatches := 0 } h0
  unfold runEpoch
  dsimp only
  split
  next hes =>
    exact ⟨h0.1, h0.2.1, fun _ => by simp⟩
  next hes =>
    split
    · exact hPB
    repeat' split
    all_goals refine DriverInv_mod M _ hPB _ _ ?_
    all_goals intro hM0
    all_goals first | exact hPB.2.2 hM0 | decide

theorem runEpochs_inv {U D S T G : Type} (env : DriverEnv U D S T G)
    (cfg : DriverConfig) (u : U) (d : D) (fuel : ℕ) (M : ℕ) :
    ∀ (e : ℕ) (st : LoopState S T), DriverInv M st →
      DriverInv M (runEpochs env cfg u d fuel e st) := by
  induction fuel with
  | zero => exact fun e st h => h
  | succ fuel ih =>
    intro e st h
    unfold runEpochs
    split
    · exact h
    · exact ih _ _ (runEpoch_inv env cfg u d e M st h)

theorem initLoopState_inv {S T : Type} (cfg : DriverConfig) (x0 : Vec)
    (s0 : S × T) : DriverInv cfg.maxIterations (initLoopState cfg x0 s0) := by
  unfold initLoopState DriverInv
  by_cases hM : cfg.maxIterations = 0
  · simp [hM]
  · simp only [hM, if_false]
    refine ⟨by simp, ?_, by simp⟩
    intro r hr
    simp only [Option.some.injEq] at hr
    omega

theorem configCheck_none (b N : ℕ) (x : Vec) (hx : x ≠ []) (hb : 0 < b)
    (hN : 0 < N) : configCheck b N x = none := by
  have h1 : ¬ x.length = 0 := fun h => hx (List.length_eq_zero.mp h)
  have h2 : ¬ b = 0 := by omega
  have h3 : ¬ N = 0 := by omega
  unfold configCheck
  simp [h1, h2, h3]

theorem runState_inv {U D S T G : Type} (sgd : SGD U D (S × T))
    (env : DriverEnv U D S T G) (fuel : ℕ) (x0 : Vec) :
    DriverInv sgd.toConfig.maxIterations (sgd.runState env fuel x0) := by
  have hinit := initLoopState_inv (S := S) (T := T) sgd.toConfig x0
    (sgd.startState (fun n =>
      (env.uops.allocate sgd.updatePolicy n, env.dops.allocate sgd.decayPolicy n))
      x0.length)
  unfold SGD.runState
  dsimp only
  split
  · exact ⟨hinit.1, hinit.2.1, fun _ => by simp⟩
  · exact runEpochs_inv env sgd.toConfig sgd.updatePolicy sgd.decayPolicy
      fuel sgd.toConfig.maxIterations 0 _ hinit

theorem optimizeCore_points_bound {U D S T G : Type} (sgd : SGD U D (S × T))
    (env : DriverEnv U D S T G) (fuel : ℕ) (x : Vec) :
    (0 < sgd.maxIterations →
      (sgd.optimizeCore env fuel x).1.points ≤ sgd.maxIterations) ∧
    (sgd.maxIterations = 0 →
      ∀ c, (sgd.optimizeCore env fuel x).1.cause = some c →
        c = Cause.toleranceReached ∨ c = Cause.callbackStop) := by
  unfold SGD.optimizeCore
  cases hc : configCheck sgd.batchSize env.func.numFunctions x with
  | some e =>
    simp only [hc]
    exact ⟨fun _ => Nat.zero_le _, fun _ c hcau => Option.noConfusion hcau⟩
  | none =>
    simp only [hc]
    try dsimp only
    obtain ⟨i1, i2, i3⟩ := runState_inv sgd env fuel x
    have hMeq : sgd.toConfig.maxIterations = sgd.maxIterations := rfl
    constructor
    · intro hMpos
      rcases hrem : (sgd.runState env fuel x).remaining with _ | r
      · have := i1 hrem
        rw [hMeq] at this
        omega
      · have h2 := (i2 r hrem).1
        rw [hMeq] at h2
        omega
    · intro hM0 c hcau
      have i3x := i3 (by rw [hMeq]; exact hM0)
      cases c with
      | maxIterationsReached => exact absurd hcau i3x
      | toleranceReached => exact Or.inl rfl
      | callbackStop => exact Or.inr rfl

theorem finalObjective_exact {G S T : Type} (cfg : DriverConfig)
    (func : SeparableFunction G) (st : LoopState S T)
    (h : cfg.exactObjective = true) :
    finalObjective cfg func st =
      func.evaluate st.iterate (List.range func.numFunctions) := by
  unfold finalObjective
  rw [h]
  simp

theorem finalObjective_estimate {G S T : Type} (cfg : DriverConfig)
    (func : SeparableFunction G) (st : LoopState S T)
    (h : cfg.exactObjective = false) :
    finalObjective cfg func st =
      (if st.epochBatches = 0 then st.lastObjective.getD 0
       else st.epochSum / (st.epochBatches : ℚ)) := by
  unfold finalObjective
  rw [h]
  simp

theorem optimizeCore_success {U D S T G : Type} (sgd : SGD U D (S × T))
    (env : DriverEnv U D S T G) (fuel : ℕ) (x : Vec)
    (hx : x ≠ []) (hb : 0 < sgd.batchSize) (hN : 0 < env.func.numFunctions) :
    (sgd.optimizeCore env fuel x).1.objective =
      Except.ok (finalObjective sgd.toConfig env.func (sgd.runState env fuel x)) ∧
    (sgd.optimizeCore env fuel x).1.iterate = (sgd.runState env fuel x).iterate := by
  unfold SGD.optimizeCore
  rw [configCheck_none _ _ _ hx hb hN]
  exact ⟨rfl, rfl⟩

theorem startState_persist {U D ST : Type} (sgd : SGD U D ST) (fresh : ℕ → ST)
    (n : ℕ) (s : ST) (h : sgd.resetPolicy = false) (hs : sgd.instState = some s) :
    sgd.startState fresh n = s := by
  unfold SGD.startState
  rw [hs]
  simp [h]

theorem optimizeCore_fst_reset {U D S T G : Type} (sgd : SGD U D (S × T))
    (env : DriverEnv U D S T G) (fuel : ℕ) (x : Vec) (v : Option (S × T))
    (h : sgd.resetPolicy = true) :
    (({ sgd with instState := v } : SGD U D (S × T)).optimizeCore env fuel x).1 =
      (sgd.optimizeCore env fuel x).1 := by
  obtain ⟨ss, bs, mi, tol, sh, up, dp, rp, eo, ist⟩ := sgd
  dsimp only at h
  subst h
  cases v <;> cases ist <;>
    first
      | rfl
      | (unfold SGD.optimizeCore
         dsimp only
         cases hc : configCheck bs env.func.numFunctions x <;>
           simp [hc, SGD.runState, SGD.startState, SGD.toConfig])

theorem processBatch_first {U D S T G : Type} (env : DriverEnv U D S T G)
    (u : U) (d : D) (batch : List ℕ) (st : LoopState S T)
    (hc : st.cause = none)
    (hrem : st.remaining = none ∨
      ∃ r, st.remaining = some r ∧ batch.length ≤ r ∧ 0 < r)
    (hss : stopAtStepStart env.cbs st.steps = false)
    (hg : stopAtGradient env.cbs st.steps = false)
    (hs : stopAtStepEnd env.cbs st.steps = true) :
    processBatch env u d batch st =
      { st with
        iterate := (env.uops.update u st.pstate st.iterate st.stepSize
          (env.func.gradient st.iterate batch)).1,
        pstate := (env.uops.update u st.pstate st.iterate st.stepSize
          (env.func.gradient st.iterate batch)).2,
        dstate := (env.dops.update d st.dstate st.stepSize).2,
        stepSize := (env.dops.update d st.dstate st.stepSize).1,
        steps := st.steps + 1,
        points := st.points + batch.length,
        remaining := st.remaining.map (fun rr => rr - batch.length),
        epochSum := st.epochSum + env.func.evaluate st.iterate batch,
        epochBatches := st.epochBatches + 1,
        cause := some Cause.callbackStop } := by
  unfold processBatch
  rw [hc]
  rcases hrem with hnone | ⟨r, hsome, hle, hpos⟩
  · rw [hnone]
    simp [hss, hg, hs, List.take_length]
  · rw [hsome]
    have h0 : ¬ ((some r : Option ℕ) = some 0) := by
      simp
      omega
    have heff : min batch.length r = batch.length := Nat.min_eq_left hle
    simp [h0, hss, hg, hs, heff, List.take_length]

theorem runEpochs_first_step_stop {U D S T G : Type} (env : DriverEnv U D S T G)
    (cfg : DriverConfig) (u : U) (d : D) (k : ℕ) (x0 : Vec) (s0 : S × T)
    (hes : stopAtEpochStart env.cbs 0 = false)
    (hss : stopAtStepStart env.cbs 0 = false)
    (hg : stopAtGradient env.cbs 0 = false)
    (hs : stopAtStepEnd env.cbs 0 = true)
    (horder : epochOrder env cfg 0 ≠ [])
    (hB : 0 < cfg.batchSize)
    (hbud : cfg.maxIterations = 0 ∨ cfg.batchSize ≤ cfg.maxIterations) :
    (runEpochs env cfg u d (k + 1) 0 (initLoopState cfg x0 s0)).steps = 1 ∧
    (runEpochs env cfg u d (k + 1) 0 (initLoopState cfg x0 s0)).cause =
      some Cause.callbackStop ∧
    (runEpochs env cfg u d (k + 1) 0 (initLoopState cfg x0 s0)).iterate =
      (env.uops.update u s0.1 x0 cfg.stepSize
        (env.func.gradient x0 ((epochOrder env cfg 0).take cfg.batchSize))).1 := by
  obtain ⟨b, hb⟩ : ∃ b, cfg.batchSize = b + 1 := ⟨cfg.batchSize - 1, by omega⟩
  obtain ⟨o, os, ho⟩ : ∃ o os, epochOrder env cfg 0 = o :: os := by
    cases hoo : epochOrder env cfg 0 with
    | nil => exact absurd hoo horder
    | cons o os => exact ⟨o, os, rfl⟩
  have hchunks : chunksOf cfg.batchSize (epochOrder env cfg 0) =
      ((epochOrder env cfg 0).take cfg.batchSize) ::
        chunksOf cfg.batchSize ((epochOrder env cfg 0).drop cfg.batchSize) := by
    rw [hb, ho]
    exact chunksOf_cons b o os
  have hrem : ({ initLoopState cfg x0 s0 with
        epochSum := 0, epochBatches := 0 } : LoopState S T).remaining = none ∨
      ∃ r, ({ initLoopState cfg x0 s0 with
        epochSum := 0, epochBatches := 0 } : LoopState S T).remaining = some r ∧
        ((epochOrder env cfg 0).take cfg.batchSize).length ≤ r ∧ 0 < r := by
    rcases hbud with hM | hM
    · exact Or.inl (by simp [initLoopState, hM])
    · refine Or.inr ⟨cfg.maxIterations, by simp [initLoopState]; omega, ?_, by omega⟩
      exact le_trans (List.length_take_le _ _) hM
  have hW := processBatch_first env u d ((epochOrder env cfg 0).take cfg.batchSize)
    { initLoopState cfg x0 s0 with epochSum := 0, epochBatches := 0 }
    rfl hrem hss hg hs
  have hcs : (processBatch env u d ((epochOrder env cfg 0).take cfg.batchSize)
      { initLoopState cfg x0 s0 with
        epochSum := 0, epochBatches := 0 }).cause.isSome = true := by
    rw [hW]
    rfl
  have hPBs : processBatches env u d
      (chunksOf cfg.batchSize (epochOrder env cfg 0))
      { initLoopState cfg x0 s0 with epochSum := 0, epochBatches := 0 } =
      processBatch env u d ((epochOrder env cfg 0).take cfg.batchSize)
        { initLoopState cfg x0 s0 with epochSum := 0, epochBatches := 0 } := by
    rw [hchunks]
    rw [show processBatches env u d
        (((epochOrder env cfg 0).take cfg.batchSize) ::
          chunksOf cfg.batchSize ((epochOrder env cfg 0).drop cfg.batchSize))
        { initLoopState cfg x0 s0 with epochSum := 0, epochBatches := 0 } =
      processBatches env u d
        (chunksOf cfg.batchSize ((epochOrder env cfg 0).drop cfg.batchSize))
        (processBatch env u d ((epochOrder env cfg 0).take cfg.batchSize)
          { initLoopState cfg x0 s0 with epochSum := 0, epochBatches := 0 })
      from rfl]
    exact processBatches_stopped env u d _ _ hcs
  have hepoch : runEpoch env cfg u d 0 (initLoopState cfg x0 s0) =
      processBatch env u d ((epochOrder env cfg 0).take cfg.batchSize)
        { initLoopState cfg x0 s0 with epochSum := 0, epochBatches := 0 } := by
    unfold runEpoch
    dsimp only
    rw [if_neg (show ¬ stopAtEpochStart env.cbs 0 = true by simp [hes])]
    rw [hPBs, hcs]
    simp
  have h1 : runEpochs env cfg u d (k + 1) 0 (initLoopState cfg x0 s0) =
      runEpochs env cfg u d k 1 (runEpoch env cfg u d 0 (initLoopState cfg x0 s0)) :=
    rfl
  have hfull : runEpochs env cfg u d (k + 1) 0 (initLoopState cfg x0 s0) =
      processBatch env u d ((epochOrder env cfg 0).take cfg.batchSize)
        { initLoopState cfg x0 s0 with epochSum := 0, epochBatches := 0 } := by
    rw [h1, hepoch, hW]
    exact runEpochs_stopped env cfg u d k 1 _ rfl
  rw [hfull, hW]
  exact ⟨rfl, rfl, rfl⟩

/-- C1: constructing a Padam optimizer is pure composition: it builds
exactly an SGD driver configured with the `PadamUpdate` policy (from
epsilon, beta1, beta2, partial), the `NoDecay` decay policy and the given
driver parameters; and `Padam::Optimize` returns exactly the value of that
SGD driver's `Optimize` on the same arguments, with the same mutation of
the iterate (here: the same finishing iterate and the same persisted driver
state). -/
theorem padam_pure_composition (stepSize : ℚ) (batchSize : ℕ)
    (beta1 beta2 partialParam epsilon : ℚ) (maxIterations : ℕ) (tolerance : ℚ)
    (shuffle resetPolicy exactObjective : Bool) :
    (Padam.build stepSize batchSize beta1 beta2 partialParam epsilon
        maxIterations tolerance shuffle resetPolicy exactObjective).optimizer =
      padamFacadeSpec stepSize batchSize beta1 beta2 partialParam epsilon
        maxIterations tolerance shuffle resetPolicy exactObjective ∧
    ∀ (G : Type) (gops : GradOps G) (rpow : ℚ → ℚ → ℚ) (p : Padam)
      (func : SeparableFunction G) (orderFun : ℕ → List ℕ)
      (cbs : List Callback) (fuel : ℕ) (x : Vec),
      (Padam.OptimizeG G gops rpow p func orderFun cbs fuel x).1 =
        (p.optimizer.Optimize (padamEnv gops rpow func orderFun cbs) fuel x).1 ∧
      (Padam.OptimizeG G gops rpow p func orderFun cbs fuel x).2.optimizer =
        (p.optimizer.Optimize (padamEnv gops rpow func orderFun cbs) fuel x).2 :=
  ⟨rfl, fun _ _ _ _ _ _ _ _ _ => ⟨rfl, rfl⟩⟩

/-- C10: the `Padam::Optimize` overload that omits the gradient matrix type
agrees, on every function, iterate and callback list, with the
explicit-gradient-type overload at `GradType = MatType` (the identity
gradient representation on `Vec`). -/
theorem padam_optimize_overloads_agree (rpow : ℚ → ℚ → ℚ) (p : Padam)
    (func : SeparableFunction Vec) (orderFun : ℕ → List ℕ)
    (cbs : List Callback) (fuel : ℕ) (x : Vec) :
    Padam.Optimize rpow p func orderFun cbs fuel x =
      Padam.OptimizeG Vec vecGradOps rpow p func orderFun cbs fuel x := rfl

/-- C7: every tunable of the Padam facade has a get/set accessor pair;
setting a tunable to `v` and then reading the whole tunable surface returns
`v` at that tunable and leaves every other tunable unchanged; and an
`Optimize` call leaves the whole tunable surface unchanged (configuration
is immutable during a run). -/
theorem padam_accessor_surface (p : Padam) (q : ℚ) (n : ℕ) (b : Bool) :
    (p.setStepSize q).view = (q, p.BatchSize, p.Beta1, p.Beta2,
      p.PartialParameter, p.Epsilon, p.MaxIterations, p.Tolerance, p.Shuffle,
      p.ExactObjective, p.ResetPolicy) ∧
    (p.setBatchSize n).view = (p.StepSize, n, p.Beta1, p.Beta2,
      p.PartialParameter, p.Epsilon, p.MaxIterations, p.Tolerance, p.Shuffle,
      p.ExactObjective, p.ResetPolicy) ∧
    (p.setBeta1 q).view = (p.StepSize, p.BatchSize, q, p.Beta2,
      p.PartialParameter, p.Epsilon, p.MaxIterations, p.Tolerance, p.Shuffle,
      p.ExactObjective, p.ResetPolicy) ∧
    (p.setBeta2 q).view = (p.StepSize, p.BatchSize, p.Beta1, q,
      p.PartialParameter, p.Epsilon, p.MaxIterations, p.Tolerance, p.Shuffle,
      p.ExactObjective, p.ResetPolicy) ∧
    (p.setPartialParameter q).view = (p.StepSize, p.BatchSize, p.Beta1,
      p.Beta2, q, p.Epsilon, p.MaxIterations, p.Tolerance, p.Shuffle,
      p.ExactObjective, p.ResetPolicy) ∧
    (p.setEpsilon q).view = (p.StepSize, p.BatchSize, p.Beta1, p.Beta2,
      p.PartialParameter, q, p.MaxIterations, p.Tolerance, p.Shuffle,
      p.ExactObjective, p.ResetPolicy) ∧
    (p.setMaxIterations n).view = (p.StepSize, p.BatchSize, p.Beta1, p.Beta2,
      p.PartialParameter, p.Epsilon, n, p.Tolerance, p.Shuffle,
      p.ExactObjective, p.ResetPolicy) ∧
    (p.setTolerance q).view = (p.StepSize, p.BatchSize, p.Beta1, p.Beta2,
      p.PartialParameter, p.Epsilon, p.MaxIterations, q, p.Shuffle,
      p.ExactObjective, p.ResetPolicy) ∧
    (p.setShuffle b).view = (p.StepSize, p.BatchSize, p.Beta1, p.Beta2,
      p.PartialParameter, p.Epsilon, p.MaxIterations, p.Tolerance, b,
      p.ExactObjective, p.ResetPolicy) ∧
    (p.setExactObjective b).view = (p.StepSize, p.BatchSize, p.Beta1, p.Beta2,
      p.PartialParameter, p.Epsilon, p.MaxIterations, p.Tolerance, p.Shuffle,
      b, p.ResetPolicy) ∧
    (p.setResetPolicy b).view = (p.StepSize, p.BatchSize, p.Beta1, p.Beta2,
      p.PartialParameter, p.Epsilon, p.MaxIterations, p.Tolerance, p.Shuffle,
      p.ExactObjective, b) ∧
    ∀ (G : Type) (gops : GradOps G) (rpow : ℚ → ℚ → ℚ)
      (func : SeparableFunction G) (orderFun : ℕ → List ℕ)
      (cbs : List Callback) (fuel : ℕ) (x : Vec),
      (Padam.OptimizeG G gops rpow p func orderFun cbs fuel x).2.view = p.view :=
  ⟨rfl, rfl, rfl, rfl, rfl, rfl, rfl, rfl, rfl, rfl, rfl,
   fun _ _ _ _ _ _ _ _ => rfl⟩

/-- C9: for every sample count `N` and batch size `B ≥ 1`, an epoch's batch
partitioning of an index ordering (a permutation of `0..N-1`) traverses the
ordering in consecutive batches of size `B` with only the last batch
possibly smaller, and processes every sample index exactly once. -/
theorem epoch_batch_partitioning (B N : ℕ) (hB : 0 < B) (order : List ℕ)
    (horder : order.Perm (List.range N)) :
    (chunksOf B order).flatten = order ∧
    (∀ i, i < N → (chunksOf B order).flatten.count i = 1) ∧
    (∀ c ∈ chunksOf B order, c ≠ [] ∧ c.length ≤ B) ∧
    (∀ c ∈ (chunksOf B order).dropLast, c.length = B) := by
  obtain ⟨b, rfl⟩ : ∃ b, B = b + 1 := ⟨B - 1, by omega⟩
  refine ⟨chunksOf_flatten _ _, ?_, chunksOf_mem_length _ _,
    chunksOf_dropLast_length _ _⟩
  intro i hi
  rw [chunksOf_flatten, horder.count_eq]
  exact List.count_eq_one_of_mem (List.nodup_range N) (List.mem_range.mpr hi)

/-- Witness for C9 at `B = 2`, `N = 5`, identity ordering. -/
theorem epoch_batch_partitioning_witness :
    (0 < 2 ∧ (List.range 5).Perm (List.range 5)) ∧
    ((chunksOf 2 (List.range 5)).flatten = List.range 5 ∧
     (∀ i, i < 5 → (chunksOf 2 (List.range 5)).flatten.count i = 1) ∧
     (∀ c ∈ chunksOf 2 (List.range 5), c ≠ [] ∧ c.length ≤ 2) ∧
     (∀ c ∈ (chunksOf 2 (List.range 5)).dropLast, c.length = 2)) :=
  ⟨⟨by decide, List.Perm.refl _⟩,
   epoch_batch_partitioning 2 5 (by decide) (List.range 5) (List.Perm.refl _)⟩

/-- Gradient-driver half of C5: zero-length iterate, zero batch size, or
`NumFunctions() = 0` aborts the run before any step, with the error
surfaced, the iterate exactly as passed in, and the facade untouched. -/
theorem padam_config_error_core (G : Type) (gops : GradOps G)
    (rpow : ℚ → ℚ → ℚ) (p : Padam) (func : SeparableFunction G)
    (orderFun : ℕ → List ℕ) (cbs : List Callback) (fuel : ℕ) (x : Vec)
    (hbad : x = [] ∨ p.BatchSize = 0 ∨ func.numFunctions = 0) :
    (∃ e, (Padam.OptimizeG G gops rpow p func orderFun cbs fuel x).1.objective =
      Except.error e) ∧
    (Padam.OptimizeG G gops rpow p func orderFun cbs fuel x).1.iterate = x ∧
    (Padam.OptimizeG G gops rpow p func orderFun cbs fuel x).1.steps = 0 ∧
    (Padam.OptimizeG G gops rpow p func orderFun cbs fuel x).1.points = 0 ∧
    (Padam.OptimizeG G gops rpow p func orderFun cbs fuel x).2 = p := by
  have hcheck : ∃ e, configCheck p.optimizer.batchSize func.numFunctions x = some e := by
    unfold configCheck
    rcases hbad with h | h | h
    · exact ⟨ConfigError.emptyIterate, by simp [h]⟩
    · by_cases hx : x.length = 0
      · exact ⟨ConfigError.emptyIterate, by simp [hx]⟩
      · exact ⟨ConfigError.zeroBatchSize, by simp [hx, h, Padam.BatchSize] at *; simp [h]⟩
    · by_cases hx : x.length = 0
      · exact ⟨ConfigError.emptyIterate, by simp [hx]⟩
      · by_cases hb : p.optimizer.batchSize = 0
        · exact ⟨ConfigError.zeroBatchSize, by simp [hx, hb]⟩
        · exact ⟨ConfigError.zeroNumFunctions, by simp [hx, hb, h]⟩
  obtain ⟨e, he⟩ := hcheck
  have he2 : configCheck p.optimizer.batchSize
      (padamEnv gops rpow func orderFun cbs).func.numFunctions x = some e := he
  unfold Padam.OptimizeG SGD.Optimize SGD.optimizeCore
  simp only [he2]
  refine ⟨⟨e, rfl⟩, ?_, ?_, ?_, ?_⟩ <;> first | rfl | trivial

/-- Population-driver half of C5, against the spec-modelled `LBestPSO`:
zero-length iterate, zero swarm size, a bound vector that is neither
per-dimension nor a broadcastable scalar, or a lower bound above its upper
bound aborts the run before any step, with the error surfaced and the
iterate exactly as passed in. -/
theorem pso_config_error_core (s : LBestPSO) (f : ObjectiveFunction)
    (rnd : PSORandom) (x : Vec)
    (hbad : x = [] ∨ s.swarmSize = 0 ∨
      ¬ (s.lowerBound.length = x.length ∨ s.lowerBound.length = 1) ∨
      ¬ (s.upperBound.length = x.length ∨ s.upperBound.length = 1) ∨
      ((broadcastBound s.lowerBound x.length).zip
        (broadcastBound s.upperBound x.length)).any
        (fun pr => decide (pr.2 < pr.1)) = true) :
    (∃ e, (s.Optimize f rnd x).1 = Except.error e) ∧
    (s.Optimize f rnd x).2 = x := by
  have hcheck : ∃ e, psoConfigCheck s x = some e := by
    unfold psoConfigCheck
    by_cases h0 : x.length = 0
    · exact ⟨PSOConfigError.emptyIterate, by rw [if_pos h0]⟩
    · rw [if_neg h0]
      by_cases h1 : s.swarmSize = 0
      · exact ⟨PSOConfigError.zeroSwarmSize, by rw [if_pos h1]⟩
      · rw [if_neg h1]
        by_cases h2 : ¬ (s.lowerBound.length = x.length ∨ s.lowerBound.length = 1) ∨
            ¬ (s.upperBound.length = x.length ∨ s.upperBound.length = 1)
        · exact ⟨PSOConfigError.boundsShapeMismatch, by rw [if_pos h2]⟩
        · rw [if_neg h2]
          have h3 : ((broadcastBound s.lowerBound x.length).zip
              (broadcastBound s.upperBound x.length)).any
              (fun pr => decide (pr.2 < pr.1)) = true := by
            rcases hbad with h | h | h | h | h
            · exact absurd (by simp [h]) h0
            · exact absurd h h1
            · exact absurd (Or.inl h) h2
            · exact absurd (Or.inr h) h2
            · exact h
          exact ⟨PSOConfigError.malformedBounds, by rw [if_pos h3]⟩
  obtain ⟨e, he⟩ := hcheck
  unfold LBestPSO.Optimize
  rw [he]
  exact ⟨⟨e, rfl⟩, rfl⟩

/-- C5: a configuration error present at the start of an `Optimize` call
aborts the run before any step, with the failure surfaced as a signaled
error, the iterate exactly as passed in, and the facade instance untouched:
for the gradient-based driver, a zero-length iterate, a zero batch size, or
`NumFunctions() = 0`; for the population-based driver, a zero-length
iterate, a zero swarm size, a bound vector that is neither per-dimension
nor a broadcastable scalar, or a lower bound exceeding its upper bound. -/
theorem optimize_config_error_aborts :
    (∀ (G : Type) (gops : GradOps G) (rpow : ℚ → ℚ → ℚ) (p : Padam)
       (func : SeparableFunction G) (orderFun : ℕ → List ℕ)
       (cbs : List Callback) (fuel : ℕ) (x : Vec),
       x = [] ∨ p.BatchSize = 0 ∨ func.numFunctions = 0 →
       (∃ e, (Padam.OptimizeG G gops rpow p func orderFun cbs fuel x).1.objective =
         Except.error e) ∧
       (Padam.OptimizeG G gops rpow p func orderFun cbs fuel x).1.iterate = x ∧
       (Padam.OptimizeG G gops rpow p func orderFun cbs fuel x).1.steps = 0 ∧
       (Padam.OptimizeG G gops rpow p func orderFun cbs fuel x).1.points = 0 ∧
       (Padam.OptimizeG G gops rpow p func orderFun cbs fuel x).2 = p) ∧
    (∀ (s : LBestPSO) (f : ObjectiveFunction) (rnd : PSORandom) (x : Vec),
       x = [] ∨ s.swarmSize = 0 ∨
         ¬ (s.lowerBound.length = x.length ∨ s.lowerBound.length = 1) ∨
         ¬ (s.upperBound.length = x.length ∨ s.upperBound.length = 1) ∨
         ((broadcastBound s.lowerBound x.length).zip
           (broadcastBound s.upperBound x.length)).any
           (fun pr => decide (pr.2 < pr.1)) = true →
       (∃ e, (s.Optimize f rnd x).1 = Except.error e) ∧
       (s.Optimize f rnd x).2 = x) :=
  ⟨fun G gops rpow p func orderFun cbs fuel x hbad =>
     padam_config_error_core G gops rpow p func orderFun cbs fuel x hbad,
   fun s f rnd x hbad => pso_config_error_core s f rnd x hbad⟩

/-- Witness for C5: a Padam run on an objective with zero samples, and a
PSO run with an empty swarm; both abort with an error and an unchanged
iterate. -/
theorem optimize_config_error_aborts_witness :
    ((([(37 : ℚ)] : Vec) = [] ∨ demoPadam.BatchSize = 0 ∨
        demoEmptyFunction.numFunctions = 0) ∧
      (∃ e, (Padam.OptimizeG Vec vecGradOps (fun b _ => b) demoPadam
          demoEmptyFunction (fun _ => []) [] 3 [(37 : ℚ)]).1.objective =
        Except.error e) ∧
      (Padam.OptimizeG Vec vecGradOps (fun b _ => b) demoPadam
        demoEmptyFunction (fun _ => []) [] 3 [(37 : ℚ)]).1.iterate = [(37 : ℚ)] ∧
      (Padam.OptimizeG Vec vecGradOps (fun b _ => b) demoPadam
        demoEmptyFunction (fun _ => []) [] 3 [(37 : ℚ)]).1.steps = 0 ∧
      (Padam.OptimizeG Vec vecGradOps (fun b _ => b) demoPadam
        demoEmptyFunction (fun _ => []) [] 3 [(37 : ℚ)]).1.points = 0 ∧
      (Padam.OptimizeG Vec vecGradOps (fun b _ => b) demoPadam
        demoEmptyFunction (fun _ => []) [] 3 [(37 : ℚ)]).2 = demoPadam) ∧
    ((([(0 : ℚ)] : Vec) = [] ∨ demoPSO.swarmSize = 0 ∨
        ¬ (demoPSO.lowerBound.length = ([(0 : ℚ)] : Vec).length ∨
          demoPSO.lowerBound.length = 1) ∨
        ¬ (demoPSO.upperBound.length = ([(0 : ℚ)] : Vec).length ∨
          demoPSO.upperBound.length = 1) ∨
        ((broadcastBound demoPSO.lowerBound ([(0 : ℚ)] : Vec).length).zip
          (broadcastBound demoPSO.upperBound ([(0 : ℚ)] : Vec).length)).any
          (fun pr => decide (pr.2 < pr.1)) = true) ∧
      (∃ e, (demoPSO.Optimize demoObjective demoRandom [(0 : ℚ)]).1 =
        Except.error e) ∧
      (demoPSO.Optimize demoObjective demoRandom [(0 : ℚ)]).2 = [(0 : ℚ)]) :=
  ⟨⟨Or.inr (Or.inr rfl),
    optimize_config_error_aborts.1 Vec vecGradOps (fun b _ => b) demoPadam
      demoEmptyFunction (fun _ => []) [] 3 [(37 : ℚ)] (Or.inr (Or.inr rfl))⟩,
   ⟨Or.inr (Or.inl rfl),
    optimize_config_error_aborts.2 demoPSO demoObjective demoRandom [(0 : ℚ)]
      (Or.inr (Or.inl rfl))⟩⟩

/-- C2: for every separable objective and starting iterate (of nonzero
length, with a positive batch size and a nonempty sample set),
`Padam::Optimize` leaves the run's finishing parameters in the iterate, and
returns the final objective value: with `exactObjective` set, the objective
evaluated at exactly those finishing parameters; with `exactObjective`
unset, the last-estimated objective — the running average of the per-batch
losses of the last (possibly partial) epoch of the run, falling back to the
last epoch-boundary objective when that epoch processed no batch. -/
theorem padam_optimize_contract (G : Type) (gops : GradOps G) (rpow : ℚ → ℚ → ℚ)
    (p : Padam) (func : SeparableFunction G) (orderFun : ℕ → List ℕ)
    (cbs : List Callback) (fuel : ℕ) (x : Vec)
    (hx : x ≠ []) (hb : 0 < p.BatchSize) (hN : 0 < func.numFunctions) :
    (Padam.OptimizeG G gops rpow p func orderFun cbs fuel x).1.iterate =
      (p.optimizer.runState (padamEnv gops rpow func orderFun cbs) fuel x).iterate ∧
    (p.ExactObjective = true →
      (Padam.OptimizeG G gops rpow p func orderFun cbs fuel x).1.objective =
        Except.ok (func.evaluate
          (Padam.OptimizeG G gops rpow p func orderFun cbs fuel x).1.iterate
          (List.range func.numFunctions))) ∧
    (p.ExactObjective = false →
      (Padam.OptimizeG G gops rpow p func orderFun cbs fuel x).1.objective =
        Except.ok
          (if (p.optimizer.runState (padamEnv gops rpow func orderFun cbs)
              fuel x).epochBatches = 0
           then (p.optimizer.runState (padamEnv gops rpow func orderFun cbs)
              fuel x).lastObjective.getD 0
           else (p.optimizer.runState (padamEnv gops rpow func orderFun cbs)
              fuel x).epochSum /
             ((p.optimizer.runState (padamEnv gops rpow func orderFun cbs)
              fuel x).epochBatches : ℚ))) := by
  have hcore := optimizeCore_success p.optimizer
    (padamEnv gops rpow func orderFun cbs) fuel x hx hb hN
  refine ⟨hcore.2, ?_, ?_⟩
  · intro hex
    have hex2 : p.optimizer.toConfig.exactObjective = true := hex
    have hobj := hcore.1
    rw [finalObjective_exact _ _ _ hex2] at hobj
    rw [show (Padam.OptimizeG G gops rpow p func orderFun cbs fuel x).1.iterate =
      (p.optimizer.runState (padamEnv gops rpow func orderFun cbs) fuel x).iterate
      from hcore.2]
    exact hobj
  · intro hex
    have hex2 : p.optimizer.toConfig.exactObjective = false := hex
    have hobj := hcore.1
    rw [finalObjective_estimate _ _ _ hex2] at hobj
    exact hobj

/-- Witness for C2: a concrete one-sample run with the estimated objective
(`exactObjective = false`), the branch the default configuration uses. -/
theorem padam_optimize_contract_witness :
    (([(1 : ℚ)] : Vec) ≠ [] ∧ 0 < demoPadamEst.BatchSize ∧
     0 < demoFunction.numFunctions) ∧
    ((Padam.OptimizeG Vec vecGradOps (fun b _ => b) demoPadamEst demoFunction
        (fun _ => []) [] 2 [(1 : ℚ)]).1.iterate =
      (demoPadamEst.optimizer.runState
        (padamEnv vecGradOps (fun b _ => b) demoFunction (fun _ => []) [])
        2 [(1 : ℚ)]).iterate ∧
     (demoPadamEst.ExactObjective = true →
       (Padam.OptimizeG Vec vecGradOps (fun b _ => b) demoPadamEst demoFunction
          (fun _ => []) [] 2 [(1 : ℚ)]).1.objective =
         Except.ok (demoFunction.evaluate
           (Padam.OptimizeG Vec vecGradOps (fun b _ => b) demoPadamEst
             demoFunction (fun _ => []) [] 2 [(1 : ℚ)]).1.iterate
           (List.range demoFunction.numFunctions))) ∧
     (demoPadamEst.ExactObjective = false →
       (Padam.OptimizeG Vec vecGradOps (fun b _ => b) demoPadamEst demoFunction
          (fun _ => []) [] 2 [(1 : ℚ)]).1.objective =
         Except.ok
           (if (demoPadamEst.optimizer.runState
               (padamEnv vecGradOps (fun b _ => b) demoFunction (fun _ => []) [])
               2 [(1 : ℚ)]).epochBatches = 0
            then (demoPadamEst.optimizer.runState
               (padamEnv vecGradOps (fun b _ => b) demoFunction (fun _ => []) [])
               2 [(1 : ℚ)]).lastObjective.getD 0
            else (demoPadamEst.optimizer.runState
               (padamEnv vecGradOps (fun b _ => b) demoFunction (fun _ => []) [])
               2 [(1 : ℚ)]).epochSum /
              ((demoPadamEst.optimizer.runState
               (padamEnv vecGradOps (fun b _ => b) demoFunction (fun _ => []) [])
               2 [(1 : ℚ)]).epochBatches : ℚ)))) :=
  ⟨⟨by decide, by decide, by decide⟩,
   padam_optimize_contract Vec vecGradOps (fun b _ => b) demoPadamEst
     demoFunction (fun _ => []) [] 2 [(1 : ℚ)] (by decide) (by decide)
     (by decide)⟩

/-- C3: `Padam::Optimize` terminates: with a positive `maxIterations` the
driver processes at most `maxIterations` points (one iteration equals one
processed point, per the constructor documentation in `padam.hpp` lines
49-51); with `maxIterations = 0` the run is unbounded by iteration count —
a recorded terminal cause can only be the tolerance check or a
callback-requested cancellation, never the iteration limit. -/
theorem padam_termination (G : Type) (gops : GradOps G) (rpow : ℚ → ℚ → ℚ)
    (p : Padam) (func : SeparableFunction G) (orderFun : ℕ → List ℕ)
    (cbs : List Callback) (fuel : ℕ) (x : Vec) :
    (0 < p.MaxIterations →
      (Padam.OptimizeG G gops rpow p func orderFun cbs fuel x).1.points ≤
        p.MaxIterations) ∧
    (p.MaxIterations = 0 →
      ∀ c, (Padam.OptimizeG G gops rpow p func orderFun cbs fuel x).1.cause =
          some c →
        c = Cause.toleranceReached ∨ c = Cause.callbackStop) :=
  optimizeCore_points_bound p.optimizer (padamEnv gops rpow func orderFun cbs)
    fuel x

/-- Witness for C3 at a concrete run. -/
theorem padam_termination_witness :
    (0 < demoPadam.MaxIterations →
      (Padam.OptimizeG Vec vecGradOps (fun b _ => b) demoPadam demoFunction
        (fun _ => []) [] 2 [(1 : ℚ)]).1.points ≤ demoPadam.MaxIterations) ∧
    (demoPadam.MaxIterations = 0 →
      ∀ c, (Padam.OptimizeG Vec vecGradOps (fun b _ => b) demoPadam demoFunction
          (fun _ => []) [] 2 [(1 : ℚ)]).1.cause = some c →
        c = Cause.toleranceReached ∨ c = Cause.callbackStop) :=
  padam_termination Vec vecGradOps (fun b _ => b) demoPadam demoFunction
    (fun _ => []) [] 2 [(1 : ℚ)]

/-- C4: reset semantics.  With `resetPolicy = true`, a second `Optimize`
call on the instance returned by a first call produces exactly the first
call's result again on the same starting iterate (the policy state is
reinitialized at the start of every call, so the persisted state is
irrelevant).  The instance returned by a call persists the run's final
update-policy state; and with `resetPolicy = false` the next call's
starting policy state is exactly that persisted state (the moment
accumulators persist across calls). -/
theorem padam_reset_semantics (G : Type) (gops : GradOps G) (rpow : ℚ → ℚ → ℚ)
    (p : Padam) (func : SeparableFunction G) (orderFun : ℕ → List ℕ)
    (cbs : List Callback) (fuel : ℕ) (x : Vec) :
    (p.ResetPolicy = true →
      (Padam.OptimizeG G gops rpow
        ((Padam.OptimizeG G gops rpow p func orderFun cbs fuel x).2)
        func orderFun cbs fuel x).1 =
      (Padam.OptimizeG G gops rpow p func orderFun cbs fuel x).1) ∧
    ((Padam.OptimizeG G gops rpow p func orderFun cbs fuel x).2.optimizer.instState =
      (p.optimizer.optimizeCore (padamEnv gops rpow func orderFun cbs) fuel x).2) ∧
    (p.ResetPolicy = false →
      ∀ s, (Padam.OptimizeG G gops rpow p func orderFun cbs fuel x).2.optimizer.instState =
          some s →
        ∀ (fresh : ℕ → PadamState × Unit) (n : ℕ),
          (Padam.OptimizeG G gops rpow p func orderFun cbs fuel x).2.optimizer.startState
            fresh n = s) := by
  refine ⟨?_, rfl, ?_⟩
  · intro hres
    exact optimizeCore_fst_reset p.optimizer (padamEnv gops rpow func orderFun cbs)
      fuel x ((p.optimizer.optimizeCore (padamEnv gops rpow func orderFun cbs) fuel x).2)
      hres
  · intro hres s hs fresh n
    exact startState_persist _ fresh n s hres hs

/-- Witness for C4 at a concrete run. -/
theorem padam_reset_semantics_witness :
    (demoPadam.ResetPolicy = true →
      (Padam.OptimizeG Vec vecGradOps (fun b _ => b)
        ((Padam.OptimizeG Vec vecGradOps (fun b _ => b) demoPadam demoFunction
          (fun _ => []) [] 2 [(1 : ℚ)]).2)
        demoFunction (fun _ => []) [] 2 [(1 : ℚ)]).1 =
      (Padam.OptimizeG Vec vecGradOps (fun b _ => b) demoPadam demoFunction
        (fun _ => []) [] 2 [(1 : ℚ)]).1) ∧
    ((Padam.OptimizeG Vec vecGradOps (fun b _ => b) demoPadam demoFunction
        (fun _ => []) [] 2 [(1 : ℚ)]).2.optimizer.instState =
      (demoPadam.optimizer.optimizeCore
        (padamEnv vecGradOps (fun b _ => b) demoFunction (fun _ => []) []) 2 [(1 : ℚ)]).2) ∧
    (demoPadam.ResetPolicy = false →
      ∀ s, (Padam.OptimizeG Vec vecGradOps (fun b _ => b) demoPadam demoFunction
          (fun _ => []) [] 2 [(1 : ℚ)]).2.optimizer.instState = some s →
        ∀ (fresh : ℕ → PadamState × Unit) (n : ℕ),
          (Padam.OptimizeG Vec vecGradOps (fun b _ => b) demoPadam demoFunction
            (fun _ => []) [] 2 [(1 : ℚ)]).2.optimizer.startState fresh n = s) :=
  padam_reset_semantics Vec vecGradOps (fun b _ => b) demoPadam demoFunction
    (fun _ => []) [] 2 [(1 : ℚ)]

/-- C6: callbacks can terminate optimization early: the stop flag is
consulted after every dispatch point — once a stop is recorded on the loop
state, no further step executes (every remaining batch and every remaining
epoch leave a stopped state unchanged), and the current objective is still
returned to the caller as a success value.  Concretely, a callback that
signals a stop at the end-of-step dispatch point of the first step — none
having stopped at the optimization-start, epoch-start, step-start or
after-gradient dispatch points before it — makes `Optimize` return after
exactly one step: the terminal cause is the callback stop, and the iterate
reflects exactly one update-policy application to the starting point on the
first batch's gradient. -/
theorem padam_first_step_stop (G : Type) (gops : GradOps G) (rpow : ℚ → ℚ → ℚ)
    (p : Padam) (func : SeparableFunction G) (orderFun : ℕ → List ℕ)
    (cbs : List Callback) (fuel : ℕ) (x : Vec)
    (hx : x ≠ []) (hB : 0 < p.BatchSize) (hN : 0 < func.numFunctions)
    (hfuel : 0 < fuel)
    (hos : stopAtStart cbs = false)
    (hes : stopAtEpochStart cbs 0 = false)
    (hss : stopAtStepStart cbs 0 = false)
    (hg : stopAtGradient cbs 0 = false)
    (hs : stopAtStepEnd cbs 0 = true)
    (horder : epochOrder (padamEnv gops rpow func orderFun cbs)
      p.optimizer.toConfig 0 ≠ [])
    (hbud : p.MaxIterations = 0 ∨ p.BatchSize ≤ p.MaxIterations) :
    (Padam.OptimizeG G gops rpow p func orderFun cbs fuel x).1.steps = 1 ∧
    (Padam.OptimizeG G gops rpow p func orderFun cbs fuel x).1.cause =
      some Cause.callbackStop ∧
    (Padam.OptimizeG G gops rpow p func orderFun cbs fuel x).1.iterate =
      ((padamUpdateOps gops rpow).update p.optimizer.updatePolicy
        (p.optimizer.startState (fun n =>
          ((padamUpdateOps gops rpow).allocate p.optimizer.updatePolicy n,
           noDecayOps.allocate p.optimizer.decayPolicy n)) x.length).1
        x p.optimizer.stepSize
        (func.gradient x ((epochOrder (padamEnv gops rpow func orderFun cbs)
          p.optimizer.toConfig 0).take p.BatchSize))).1 ∧
    (∃ q, (Padam.OptimizeG G gops rpow p func orderFun cbs fuel x).1.objective =
      Except.ok q) ∧
    (∀ (batch : List ℕ) (st : LoopState PadamState Unit), st.cause.isSome →
      processBatch (padamEnv gops rpow func orderFun cbs)
        p.optimizer.updatePolicy p.optimizer.decayPolicy batch st = st) ∧
    (∀ (fuel2 e : ℕ) (st : LoopState PadamState Unit), st.cause.isSome →
      runEpochs (padamEnv gops rpow func orderFun cbs) p.optimizer.toConfig
        p.optimizer.updatePolicy p.optimizer.decayPolicy fuel2 e st = st) := by
  obtain ⟨k, rfl⟩ : ∃ k, fuel = k + 1 := ⟨fuel - 1, by omega⟩
  have hc : configCheck p.optimizer.batchSize
      (padamEnv gops rpow func orderFun cbs).func.numFunctions x = none :=
    configCheck_none _ _ _ hx hB hN
  have hos2 : stopAtStart (padamEnv gops rpow func orderFun cbs).cbs = false := hos
  have hrun := runEpochs_first_step_stop (padamEnv gops rpow func orderFun cbs)
    p.optimizer.toConfig p.optimizer.updatePolicy p.optimizer.decayPolicy k x
    (p.optimizer.startState (fun n =>
      ((padamEnv gops rpow func orderFun cbs).uops.allocate
        p.optimizer.updatePolicy n,
       (padamEnv gops rpow func orderFun cbs).dops.allocate
        p.optimizer.decayPolicy n)) x.length)
    hes hss hg hs horder hB hbud
  unfold Padam.OptimizeG SGD.Optimize SGD.optimizeCore SGD.runState
  simp only [hc]
  try dsimp only
  rw [if_neg (show ¬ stopAtStart (padamEnv gops rpow func orderFun cbs).cbs = true
    by simp [hos2])]
  exact ⟨hrun.1, hrun.2.1, hrun.2.2, ⟨_, rfl⟩,
    fun batch st h => processBatch_stopped _ _ _ batch st h,
    fun fuel2 e st h => runEpochs_stopped _ _ _ _ fuel2 e st h⟩

/-- Witness for C6: a concrete run with a stop-requesting callback ends
after one step with one update applied, a successful objective, and a
stopped state inert under further batches and epochs. -/
theorem padam_first_step_stop_witness :
    (([(1 : ℚ)] : Vec) ≠ [] ∧ 0 < demoPadam.BatchSize ∧
     0 < demoFunction.numFunctions ∧ 0 < 2 ∧
     stopAtStart demoStopCallbacks = false ∧
     stopAtEpochStart demoStopCallbacks 0 = false ∧
     stopAtStepStart demoStopCallbacks 0 = false ∧
     stopAtGradient demoStopCallbacks 0 = false ∧
     stopAtStepEnd demoStopCallbacks 0 = true ∧
     epochOrder (padamEnv vecGradOps (fun b _ => b) demoFunction (fun _ => [])
       demoStopCallbacks) demoPadam.optimizer.toConfig 0 ≠ [] ∧
     (demoPadam.MaxIterations = 0 ∨
       demoPadam.BatchSize ≤ demoPadam.MaxIterations)) ∧
    ((Padam.OptimizeG Vec vecGradOps (fun b _ => b) demoPadam demoFunction
        (fun _ => []) demoStopCallbacks 2 [(1 : ℚ)]).1.steps = 1 ∧
     (Padam.OptimizeG Vec vecGradOps (fun b _ => b) demoPadam demoFunction
        (fun _ => []) demoStopCallbacks 2 [(1 : ℚ)]).1.cause =
       some Cause.callbackStop ∧
     (Padam.OptimizeG Vec vecGradOps (fun b _ => b) demoPadam demoFunction
        (fun _ => []) demoStopCallbacks 2 [(1 : ℚ)]).1.iterate =
       ((padamUpdateOps vecGradOps (fun b _ => b)).update demoPadam.optimizer.updatePolicy
         (demoPadam.optimizer.startState (fun n =>
           ((padamUpdateOps vecGradOps (fun b _ => b)).allocate
             demoPadam.optimizer.updatePolicy n,
            noDecayOps.allocate demoPadam.optimizer.decayPolicy n))
           ([(1 : ℚ)] : Vec).length).1
         [(1 : ℚ)] demoPadam.optimizer.stepSize
         (demoFunction.gradient [(1 : ℚ)]
           ((epochOrder (padamEnv vecGradOps (fun b _ => b) demoFunction (fun _ => [])
             demoStopCallbacks) demoPadam.optimizer.toConfig 0).take
             demoPadam.BatchSize))).1 ∧
     (∃ q, (Padam.OptimizeG Vec vecGradOps (fun b _ => b) demoPadam demoFunction
        (fun _ => []) demoStopCallbacks 2 [(1 : ℚ)]).1.objective =
       Except.ok q) ∧
     (∀ (batch : List ℕ) (st : LoopState PadamState Unit), st.cause.isSome →
       processBatch (padamEnv vecGradOps (fun b _ => b) demoFunction (fun _ => [])
           demoStopCallbacks)
         demoPadam.optimizer.updatePolicy demoPadam.optimizer.decayPolicy
         batch st = st) ∧
     (∀ (fuel2 e : ℕ) (st : LoopState PadamState Unit), st.cause.isSome →
       runEpochs (padamEnv vecGradOps (fun b _ => b) demoFunction (fun _ => [])
           demoStopCallbacks) demoPadam.optimizer.toConfig
         demoPadam.optimizer.updatePolicy demoPadam.optimizer.decayPolicy
         fuel2 e st = st)) :=
  ⟨⟨by decide, by decide, by decide, by decide, by decide, by decide,
    by decide, by decide, by decide, by decide, by decide⟩,
   padam_first_step_stop Vec vecGradOps (fun b _ => b) demoPadam demoFunction
     (fun _ => []) demoStopCallbacks 2 [(1 : ℚ)] (by decide) (by decide)
     (by decide) (by decide) (by decide) (by decide) (by decide) (by decide)
     (by decide) (by decide) (by decide)⟩

end Ens
